import Mathlib

/-!
Verification of the life-os repository: a shallow embedding of the
classification-and-routing pipeline (models, reminder policy, processing
orchestrator, capture cloud function, and the read-side queries), with
theorems settling the spec claims against it.

Conventions of the embedding:
- Python strings are Lean String; Python None / empty-string truthiness is
  made explicit (an Option String field is truthy iff it is some s with s
  nonempty).
- Calendar dates and times-of-day are structures of natural numbers with the
  lexicographic order; the external iso codec (date.isoformat and
  date.fromisoformat, which are mutually inverse library functions) is
  abstracted by storing the parsed value in the sheet-cell model.
- The comma join/split codec for the people cell is embedded concretely
  (String.intercalate and a character-level split matching Python split).
- Python list.sort with a key is a stable sort by the non-strict key order;
  it is embedded as List.insertionSort, which is stable, hence extensionally
  equal to any stable sort.
-/

/-- Calendar date (year, month, day), as Python datetime.date. -/
structure Date where
  year : Nat
  month : Nat
  day : Nat
deriving DecidableEq, Repr

/-- Strict order on dates: lexicographic on (year, month, day), matching the
order of Python datetime.date for calendar-valid dates. -/
def Date.lt (a b : Date) : Prop :=
  a.year < b.year ∨ (a.year = b.year ∧
    (a.month < b.month ∨ (a.month = b.month ∧ a.day < b.day)))

instance (a b : Date) : Decidable (Date.lt a b) := by
  unfold Date.lt; infer_instance

/-- Nonstrict order on dates. -/
def Date.le (a b : Date) : Prop :=
  Date.lt a b ∨ a = b

instance (a b : Date) : Decidable (Date.le a b) := by
  unfold Date.le; infer_instance

/-- Python datetime.date.max, used as the missing-date sort key in
get_tasks_due_by. -/
def Date.maxDate : Date := ⟨9999, 12, 31⟩

/-- Time of day (hour, minute), as Python datetime.time restricted to the
fields this repository uses. -/
structure Time where
  hour : Nat
  minute : Nat
deriving DecidableEq, Repr

/-- Nonstrict order on times of day: lexicographic on (hour, minute),
matching Python datetime.time comparison. -/
def Time.le (a b : Time) : Prop :=
  a.hour < b.hour ∨ (a.hour = b.hour ∧ a.minute ≤ b.minute)

instance (a b : Time) : Decidable (Time.le a b) := by
  unfold Time.le; infer_instance

/-- Python datetime.min.time(), i.e. midnight — the sort key substituted for
a missing due_time in get_events_for_date. -/
def Time.midnight : Time := ⟨0, 0⟩

/-! ## config/categories.py -/

/-- Top-level categories for all items (config/categories.py CATEGORIES;
the same list literal appears in cloud_functions/capture/main.py). -/
def CATEGORIES : List String :=
  ["Car", "Personal", "Family", "Finance", "Health",
   "Home", "Work", "Recruiting", "Travel", "Ideas", "Reference"]

/-- Subcategories, only used for the Ideas category
(config/categories.py IDEA_SUBCATEGORIES). -/
def IDEA_SUBCATEGORIES : List String :=
  ["Books", "Movies", "TV", "Restaurants", "Articles",
   "Gifts", "Products", "Places", "Activities", "Random"]

/-! ## src/models.py -/

/-- Item type vocabulary (models.py ItemType, a pydantic Literal; a
constructed ProcessedItem always carries one of the four values). -/
inductive ItemType where
  | Task
  | Event
  | Idea
  | Reference
deriving DecidableEq, Repr

/-- Urgency vocabulary (models.py UrgencyLevel). -/
inductive Urgency where
  | HIGH
  | MEDIUM
  | LOW
deriving DecidableEq, Repr

/-- Status vocabulary (models.py ItemStatus). -/
inductive Status where
  | pending
  | in_progress
  | completed
  | cancelled
deriving DecidableEq, Repr

/-- Calendar action vocabulary (models.py CalendarAction). -/
inductive CalendarAction where
  | CREATE_EVENT
  | CREATE_REMINDER
  | NONE
deriving DecidableEq, Repr

/-- String form of an urgency value, as serialized to sheet rows. -/
def Urgency.toStr : Urgency → String
  | .HIGH => "HIGH"
  | .MEDIUM => "MEDIUM"
  | .LOW => "LOW"

/-- Parse of the urgency Literal performed by pydantic on row deserialization;
none models a validation failure. -/
def Urgency.parse : String → Option Urgency
  | "HIGH" => some .HIGH
  | "MEDIUM" => some .MEDIUM
  | "LOW" => some .LOW
  | _ => none

/-- String form of a status value, as serialized to sheet rows. -/
def Status.toStr : Status → String
  | .pending => "pending"
  | .in_progress => "in_progress"
  | .completed => "completed"
  | .cancelled => "cancelled"

/-- Parse of the status Literal performed by pydantic on row deserialization. -/
def Status.parse : String → Option Status
  | "pending" => some .pending
  | "in_progress" => some .in_progress
  | "completed" => some .completed
  | "cancelled" => some .cancelled
  | _ => none

/-- Truthiness of a Python Optional[str]: true iff the value is neither None
nor the empty string. -/
def truthyStr (o : Option String) : Bool :=
  o.getD "" ≠ ""

/-- The ProcessedItem model (models.py ProcessedItem), restricted to the
fields the claims are about.  Fields whose pydantic type is a Literal are
embedded as inductives (their vocabulary check happens at construction);
category and subcategory are raw strings checked by the explicit validators,
embedded in mkProcessedItem below.  The reminders, clarification_questions,
sub_tasks and fine-grained timestamp fields are not referenced by any claim
and are omitted; captured_at is kept as an opaque serialized string. -/
structure ProcessedItem where
  id : String := "generated-id"
  raw_text : String := ""
  item_type : ItemType
  description : String
  category : String
  subcategory : Option String := none
  people : List String := []
  due_date : Option Date := none
  due_time : Option Time := none
  urgency : Urgency := .MEDIUM
  consequence : Option String := none
  source : Option String := none
  location : Option String := none
  links : List String := []
  notes : Option String := none
  needs_clarification : Bool := false
  status : Status := .pending
  captured_at : String := ""
  calendar_event_id : Option String := none
  calendar_action : CalendarAction := .NONE
deriving DecidableEq, Repr

/-- Construction-time validation of a ProcessedItem, embedding the pydantic
validators of models.py: validate_category raises when the category is not in
CATEGORIES, and validate_subcategory raises when the subcategory is truthy
(non-None and nonempty, per the Python if self.subcategory test) but either
the category is not Ideas or the subcategory is not in IDEA_SUBCATEGORIES.
The error payload is the failing validator message family. -/
def mkProcessedItem (p : ProcessedItem) : Except String ProcessedItem :=
  if p.category ∉ CATEGORIES then
    .error "Invalid category"
  else if truthyStr p.subcategory then
    if p.category ≠ "Ideas" then
      .error "Subcategory can only be set for Ideas category"
    else if p.subcategory.getD "" ∉ IDEA_SUBCATEGORIES then
      .error "Invalid subcategory"
    else
      .ok p
  else
    .ok p

/-! ## Sheet rows (models.py serialization helpers)

Row cells are embedded at cell granularity: plain string cells as String
(with the Python or-empty collapse written out in the serializers), the
people cell as the comma-joined string, and date/time cells as the parsed
Option value (the iso codec being the external inverse pair
isoformat/fromisoformat). The field names and order follow the column lists
of config/categories.py. -/

/-- Python comma join of the people list, as in the to_..._row methods. -/
def joinPeople (ps : List String) : String :=
  String.intercalate "," ps

/-- Python split of a people cell, as in the from_..._row methods:
row.split on comma when the cell is truthy, else the empty list. -/
def parsePeople (s : String) : List String :=
  if s = "" then [] else (s.toList.splitOn ',').map List.asString

/-- Tasks tab row (TASKS_COLUMNS order). -/
structure TaskRow where
  id : String
  description : String
  category : String
  subcategory : String
  people : String
  due_date : Option Date
  urgency : String
  consequence : String
  status : String
  notes : String
  calendar_event_id : String
  captured_at : String
deriving DecidableEq, Repr

/-- Events tab row (EVENTS_COLUMNS order). -/
structure EventRow where
  id : String
  description : String
  category : String
  people : String
  event_date : Option Date
  event_time : Option Time
  location : String
  urgency : String
  consequence : String
  calendar_event_id : String
  captured_at : String
deriving DecidableEq, Repr

/-- Ideas tab row (IDEAS_COLUMNS order). -/
structure IdeaRow where
  id : String
  description : String
  category : String
  subcategory : String
  people : String
  source : String
  links : String
  notes : String
  captured_at : String
deriving DecidableEq, Repr

/-- Reference tab row (REFERENCE_COLUMNS order); the pointer column holds the
location field. -/
structure ReferenceRow where
  id : String
  description : String
  pointer : String
  category : String
  captured_at : String
deriving DecidableEq, Repr

/-- models.py ProcessedItem.to_task_row. -/
def ProcessedItem.to_task_row (p : ProcessedItem) : TaskRow where
  id := p.id
  description := p.description
  category := p.category
  subcategory := p.subcategory.getD ""
  people := joinPeople p.people
  due_date := p.due_date
  urgency := p.urgency.toStr
  consequence := p.consequence.getD ""
  status := p.status.toStr
  notes := p.notes.getD ""
  calendar_event_id := p.calendar_event_id.getD ""
  captured_at := p.captured_at

/-- models.py ProcessedItem.to_event_row. -/
def ProcessedItem.to_event_row (p : ProcessedItem) : EventRow where
  id := p.id
  description := p.description
  category := p.category
  people := joinPeople p.people
  event_date := p.due_date
  event_time := p.due_time
  location := p.location.getD ""
  urgency := p.urgency.toStr
  consequence := p.consequence.getD ""
  calendar_event_id := p.calendar_event_id.getD ""
  captured_at := p.captured_at

/-- models.py ProcessedItem.to_idea_row. -/
def ProcessedItem.to_idea_row (p : ProcessedItem) : IdeaRow where
  id := p.id
  description := p.description
  category := p.category
  subcategory := p.subcategory.getD ""
  people := joinPeople p.people
  source := p.source.getD ""
  links := String.intercalate "," p.links
  notes := p.notes.getD ""
  captured_at := p.captured_at

/-- models.py ProcessedItem.to_reference_row. -/
def ProcessedItem.to_reference_row (p : ProcessedItem) : ReferenceRow where
  id := p.id
  description := p.description
  pointer := p.location.getD ""
  category := p.category
  captured_at := p.captured_at

/-- Collapse of an empty cell back to None, as the Python pattern
cell if cell else None. -/
def cellOpt (s : String) : Option String :=
  if s = "" then none else some s

/-- models.py ProcessedItem.from_task_row followed by pydantic validation:
the urgency and status Literal checks, then the category and subcategory
validators (mkProcessedItem). -/
def ProcessedItem.from_task_row (r : TaskRow) : Except String ProcessedItem :=
  match Urgency.parse (if r.urgency = "" then "MEDIUM" else r.urgency),
        Status.parse (if r.status = "" then "pending" else r.status) with
  | some u, some st =>
      mkProcessedItem
        { id := r.id
          raw_text := ""
          item_type := .Task
          description := r.description
          category := r.category
          subcategory := cellOpt r.subcategory
          people := parsePeople r.people
          due_date := r.due_date
          urgency := u
          consequence := cellOpt r.consequence
          status := st
          notes := cellOpt r.notes
          calendar_event_id := cellOpt r.calendar_event_id
          captured_at := r.captured_at }
  | _, _ => .error "invalid Literal value"

/-- models.py ProcessedItem.from_event_row followed by pydantic validation. -/
def ProcessedItem.from_event_row (r : EventRow) : Except String ProcessedItem :=
  match Urgency.parse (if r.urgency = "" then "MEDIUM" else r.urgency) with
  | some u =>
      mkProcessedItem
        { id := r.id
          raw_text := ""
          item_type := .Event
          description := r.description
          category := r.category
          people := parsePeople r.people
          due_date := r.event_date
          due_time := r.event_time
          location := cellOpt r.location
          urgency := u
          consequence := cellOpt r.consequence
          calendar_event_id := cellOpt r.calendar_event_id
          captured_at := r.captured_at }
  | none => .error "invalid Literal value"

/-- models.py ProcessedItem.from_idea_row followed by pydantic validation. -/
def ProcessedItem.from_idea_row (r : IdeaRow) : Except String ProcessedItem :=
  mkProcessedItem
    { id := r.id
      raw_text := ""
      item_type := .Idea
      description := r.description
      category := r.category
      subcategory := cellOpt r.subcategory
      people := parsePeople r.people
      source := cellOpt r.source
      links := if r.links = "" then [] else (r.links.toList.splitOn ',').map List.asString
      notes := cellOpt r.notes
      captured_at := r.captured_at }

/-- models.py ProcessedItem.from_reference_row followed by pydantic
validation. -/
def ProcessedItem.from_reference_row (r : ReferenceRow) : Except String ProcessedItem :=
  mkProcessedItem
    { id := r.id
      raw_text := ""
      item_type := .Reference
      description := r.description
      location := cellOpt r.pointer
      category := r.category
      captured_at := r.captured_at }

/-! ## src/sheets_client.py read queries -/

/-- Sort key used by get_events_for_date: the due_time, or Python
datetime.min.time() (midnight) when absent. -/
def eventTimeKey (p : ProcessedItem) : Time :=
  p.due_time.getD Time.midnight

/-- Key order for the event sort. -/
def eventTimeLe (a b : ProcessedItem) : Prop :=
  Time.le (eventTimeKey a) (eventTimeKey b)

instance : DecidableRel eventTimeLe := fun a b => by
  unfold eventTimeLe; infer_instance

instance : IsTotal ProcessedItem eventTimeLe :=
  ⟨fun a b => by unfold eventTimeLe Time.le; omega⟩

instance : IsTrans ProcessedItem eventTimeLe :=
  ⟨fun a b c => by unfold eventTimeLe Time.le; omega⟩

/-- sheets_client.py SheetsClient.get_events_for_date: keep the rows whose
date cell equals the target date (string equality of iso cells), parse them
(rows failing model validation are logged and skipped), then stably sort by
due_time with missing times keyed as midnight. -/
def SheetsClient.get_events_for_date (rows : List EventRow) (target : Date) :
    List ProcessedItem :=
  List.insertionSort eventTimeLe
    (rows.filterMap fun row =>
      if row.event_date = some target then (ProcessedItem.from_event_row row).toOption
      else none)

/-- Urgency rank used by get_tasks_due_by (HIGH 0, MEDIUM 1, LOW 2; the
Python dict lookup defaults to 1, unreachable for a validated item). -/
def urgencyRank : Urgency → Nat
  | .HIGH => 0
  | .MEDIUM => 1
  | .LOW => 2

/-- Date component of the task sort key: the due_date, or date.max when
absent. -/
def taskDateKey (p : ProcessedItem) : Date :=
  p.due_date.getD Date.maxDate

/-- Key order for the task sort: lexicographic on (due-date key, urgency
rank), i.e. the Python tuple order. -/
def taskSortLe (a b : ProcessedItem) : Prop :=
  Date.lt (taskDateKey a) (taskDateKey b) ∨
    (taskDateKey a = taskDateKey b ∧ urgencyRank a.urgency ≤ urgencyRank b.urgency)

instance : DecidableRel taskSortLe := fun a b => by
  unfold taskSortLe; infer_instance

instance : IsTotal ProcessedItem taskSortLe := by
  constructor
  intro a b
  unfold taskSortLe
  generalize taskDateKey a = ka
  generalize taskDateKey b = kb
  obtain ⟨y1, m1, d1⟩ := ka
  obtain ⟨y2, m2, d2⟩ := kb
  simp only [Date.lt, Date.mk.injEq]
  omega

instance : IsTrans ProcessedItem taskSortLe := by
  constructor
  intro a b c
  unfold taskSortLe
  generalize taskDateKey a = ka
  generalize taskDateKey b = kb
  generalize taskDateKey c = kc
  obtain ⟨y1, m1, d1⟩ := ka
  obtain ⟨y2, m2, d2⟩ := kb
  obtain ⟨y3, m3, d3⟩ := kc
  simp only [Date.lt, Date.mk.injEq]
  omega

/-- sheets_client.py SheetsClient.get_tasks_due_by: skip completed and
cancelled rows, keep rows with a nonempty, parseable date cell at most the
target (rows failing model validation are likewise skipped by the except
clause), then stably sort by the (due_date, urgency rank) pair. -/
def SheetsClient.get_tasks_due_by (rows : List TaskRow) (target : Date) :
    List ProcessedItem :=
  List.insertionSort taskSortLe
    (rows.filterMap fun row =>
      if row.status = "completed" ∨ row.status = "cancelled" then none
      else
        match row.due_date with
        | none => none
        | some d =>
            if Date.le d target then (ProcessedItem.from_task_row row).toOption
            else none)

/-! ## Reminder policy -/

/-- A calendar reminder override: notification method and minutes before
start. -/
structure Reminder where
  method : String
  minutes : Nat
deriving DecidableEq, Repr

/-- Shorthand for the popup reminders this repository builds. -/
def popup (m : Nat) : Reminder :=
  ⟨"popup", m⟩

/-- The seen-set deduplication loop shared by both reminder calculators:
keep the first occurrence of each minutes value, preserving order. -/
def dedupByMinutes : List Reminder → List Nat → List Reminder
  | [], _ => []
  | r :: rest, seen =>
    if r.minutes ∈ seen then dedupByMinutes rest seen
    else r :: dedupByMinutes rest (r.minutes :: seen)

/-- cloud_functions/capture/main.py calculate_reminders: base list by
urgency string (anything other than HIGH and MEDIUM falls to the LOW arm),
append 120 when has_location, append 10080 when has_consequence and no
existing reminder has minutes 10080, deduplicate by minutes, take 5. -/
def CaptureFn.calculate_reminders (urgency : String)
    (has_location has_consequence : Bool) : List Reminder :=
  let base :=
    if urgency = "HIGH" then [popup 10080, popup 1440, popup 60]
    else if urgency = "MEDIUM" then [popup 4320, popup 1440]
    else [popup 60]
  let withLoc := if has_location then base ++ [popup 120] else base
  let withCons :=
    if has_consequence then
      if withLoc.any (fun r => r.minutes == 10080) then withLoc
      else withLoc ++ [popup 10080]
    else withLoc
  (dedupByMinutes withCons []).take 5

/-- calendar_client.py CalendarClient._calculate_reminders: base list by the
item urgency; the 120-minute travel buffer is appended only when the item
location is truthy AND the item type is Event; the consequence extra 10080
is appended when the consequence is truthy and the full popup-10080 record is
not already present; then the same dedup-and-take-5. -/
def CalendarClient.calculate_reminders (item : ProcessedItem) : List Reminder :=
  let base :=
    match item.urgency with
    | .HIGH => [popup 10080, popup 1440, popup 60]
    | .MEDIUM => [popup 4320, popup 1440]
    | .LOW => [popup 60]
  let withLoc :=
    if truthyStr item.location ∧ item.item_type = .Event then base ++ [popup 120]
    else base
  let withCons :=
    if truthyStr item.consequence then
      if popup 10080 ∈ withLoc then withLoc else withLoc ++ [popup 10080]
    else withLoc
  (dedupByMinutes withCons []).take 5

/-- First-seen deduplication of minute values, as the spec words it. -/
def dedupFirstSeen : List Nat → List Nat → List Nat
  | [], _ => []
  | n :: rest, seen =>
    if n ∈ seen then dedupFirstSeen rest seen
    else n :: dedupFirstSeen rest (n :: seen)

/-- Spec-side definition of the reminder algorithm, written from the words
of the claim (base list by urgency; append 120 whenever has_location; append
10080 if has_consequence and 10080 not already present; deduplicate by
minute value preserving first-seen order; truncate to 5), for comparison
with the code-side calculators. -/
def specReminderMinutes (urgency : String)
    (has_location has_consequence : Bool) : List Nat :=
  let base :=
    if urgency = "HIGH" then [10080, 1440, 60]
    else if urgency = "MEDIUM" then [4320, 1440]
    else [60]
  let l1 := if has_location then base ++ [120] else base
  let l2 := if has_consequence ∧ 10080 ∉ l1 then l1 ++ [10080] else l1
  (dedupFirstSeen l2 []).take 5

/-! ## src/processor.py Processor

The orchestrator is embedded as a state machine over one inbox capture,
parameterized by oracles describing the collaborator outcomes: the
per-attempt extraction result (AIClientError or a validated ProcessedItem),
whether the routing append raises, whether mark_processed raises, whether a
calendar client is configured, the create_event outcome, and whether the
calendar-id backfill write raises.  Sleeps are recorded rather than
performed; delays are exact rationals (retry_delay times two to the attempt
is exact in the source floating point for the defaults). -/

/-- Per-run statistics of processor.py Processor.stats. -/
structure ProcStats where
  processed : Nat := 0
  failed : Nat := 0
  tasks_created : Nat := 0
  events_created : Nat := 0
  ideas_created : Nat := 0
  references_created : Nat := 0
  calendar_events_created : Nat := 0
deriving DecidableEq, Repr

/-- Observable state of one _process_single_item call: attempts made, sleeps
performed, statistics, rows appended to destination tabs (tab name and
item), whether the inbox capture was marked processed, and calendar-id
backfill writes. -/
structure ProcState where
  attempts : Nat := 0
  sleeps : List ℚ := []
  stats : ProcStats := {}
  appended : List (String × ProcessedItem) := []
  markedProcessed : Bool := false
  calendarIdUpdates : List (String × String) := []
deriving DecidableEq, Repr

/-- Collaborator outcomes for one _process_single_item call. -/
structure ProcOracles where
  extract : Nat → Except Unit ProcessedItem
  appendOk : Bool
  markOk : Bool
  hasCalendarClient : Bool
  createEvent : Except Unit (Option String)
  updateCalOk : Bool

/-- Processor configuration (max_retries and retry_delay of __init__). -/
structure ProcConfig where
  max_retries : Nat := 3
  retry_delay : ℚ := 2

/-- Destination tab selected by _route_item for each item type. -/
def destTab : ItemType → String
  | .Task => "Tasks"
  | .Event => "Events"
  | .Idea => "Ideas"
  | .Reference => "Reference"

/-- Per-type created counter bump of _route_item. -/
def bumpTypeStat (s : ProcStats) : ItemType → ProcStats
  | .Task => { s with tasks_created := s.tasks_created + 1 }
  | .Event => { s with events_created := s.events_created + 1 }
  | .Idea => { s with ideas_created := s.ideas_created + 1 }
  | .Reference => { s with references_created := s.references_created + 1 }

/-- processor.py Processor._route_item on a successful append: the item row
is appended to the tab selected by its type and the per-type counter is
bumped.  (The pydantic item type is always one of the four, so the
unknown-type warning branch is unreachable here.) -/
def Processor.route_item (st : ProcState) (item : ProcessedItem) : ProcState :=
  { st with
    appended := st.appended ++ [(destTab item.item_type, item)]
    stats := bumpTypeStat st.stats item.item_type }

/-- processor.py Processor._create_calendar_event: skip without a calendar
client or without a due_date; any create_event failure is caught and logged
(never failing the item); on a truthy event id, backfill the sheet cell and
bump the calendar counter — a backfill failure is caught by the same except
clause. -/
def Processor.create_calendar_event (oc : ProcOracles) (st : ProcState)
    (item : ProcessedItem) : ProcState :=
  if ¬ oc.hasCalendarClient then st
  else if item.due_date.isNone then st
  else
    match oc.createEvent with
    | .error _ => st
    | .ok none => st
    | .ok (some eid) =>
      if oc.updateCalOk then
        { st with
          calendarIdUpdates := st.calendarIdUpdates ++ [(item.id, eid)]
          stats := { st.stats with
            calendar_events_created := st.stats.calendar_events_created + 1 } }
      else st

/-- processor.py Processor._handle_failed_item: bump the failed counter (the
mark_failed call only logs; a failure of it is itself caught). -/
def Processor.handle_failed_item (st : ProcState) : ProcState :=
  { st with stats := { st.stats with failed := st.stats.failed + 1 } }

/-- The retry loop of processor.py Processor._process_single_item, indexed
by the current attempt number and the remaining iteration count.  A
successful pass extracts, routes, optionally creates the calendar artifact,
marks the capture processed and returns.  An extraction error sleeps
retry_delay times two to the attempt and retries while attempts remain, else
counts the item failed.  A routing or marking error counts the item failed
and breaks. -/
def Processor.attemptLoop (oc : ProcOracles) (cfg : ProcConfig) :
    Nat → Nat → ProcState → ProcState
  | _, 0, st => st
  | attempt, remaining + 1, st =>
    let st := { st with attempts := st.attempts + 1 }
    match oc.extract attempt with
    | .ok item =>
      if oc.appendOk then
        let st := Processor.route_item st item
        let st :=
          if item.calendar_action = .CREATE_EVENT ∨
             item.calendar_action = .CREATE_REMINDER then
            Processor.create_calendar_event oc st item
          else st
        if oc.markOk then
          { st with
            markedProcessed := true
            stats := { st.stats with processed := st.stats.processed + 1 } }
        else Processor.handle_failed_item st
      else Processor.handle_failed_item st
    | .error _ =>
      if remaining = 0 then Processor.handle_failed_item st
      else
        Processor.attemptLoop oc cfg (attempt + 1) remaining
          { st with sleeps := st.sleeps ++ [cfg.retry_delay * 2 ^ attempt] }

/-- processor.py Processor._process_single_item for one inbox capture. -/
def Processor.process_single_item (oc : ProcOracles) (cfg : ProcConfig) :
    ProcState :=
  Processor.attemptLoop oc cfg 0 cfg.max_retries {}

/-! ## cloud_functions/capture/main.py capture flow

The HTTP capture function is embedded from the save-to-inbox step onward
(method, auth and body validation are not the subject of any claim),
parameterized by oracles for the inbox append, the Gemini extraction, the
destination append, the calendar configuration and insert, and the
mark-processed cell write. -/

/-- Extraction payload of the capture function: a raw JSON object accessed
with dict get defaults, so the item type, category and urgency are arbitrary
strings here. -/
structure CaptureData where
  item_type : String := "Task"
  description : String := ""
  category : String := ""
  subcategory : Option String := none
  people : List String := []
  due_date : Option Date := none
  due_time : Option Time := none
  urgency : String := "MEDIUM"
  consequence : Option String := none
  location : Option String := none
  source : Option String := none
  notes : Option String := none
deriving DecidableEq, Repr

/-- Collaborator outcomes for one capture request. -/
structure CaptureOracles where
  gemini : Option CaptureData
  inboxAppendOk : Bool
  destAppendOk : Bool
  calendarConfigured : Bool
  calendarInsert : Except Unit String
  markOk : Bool

/-- One Inbox tab row. -/
structure InboxRow where
  id : String
  raw_text : String
  captured_at : String
  processed : Bool
deriving DecidableEq, Repr

/-- Observable outcome of one capture request: the inbox rows, the
destination rows written (tab name and row id), and the response summary
fields the claims mention. -/
structure CaptureState where
  inboxRows : List InboxRow := []
  destRows : List (String × String) := []
  statusCode : Nat := 200
  success : Bool := false
  routedTo : Option String := none
  calendarCreated : Bool := false
deriving DecidableEq, Repr

/-- main.py category validation step of capture: an extraction category
outside CATEGORIES is overwritten with Personal. -/
def CaptureFn.coerce_category (data : CaptureData) : CaptureData :=
  if data.category ∈ CATEGORIES then data
  else { data with category := "Personal" }

/-- main.py create_calendar_event: None without configuration or due date;
any insert exception is caught and None returned. -/
def CaptureFn.create_calendar_event (oc : CaptureOracles) (data : CaptureData) :
    Option String :=
  if ¬ oc.calendarConfigured then none
  else
    match data.due_date with
    | none => none
    | some _ =>
      match oc.calendarInsert with
      | .ok eid => some eid
      | .error _ => none

/-- main.py route_to_sheet: dispatch on the raw item_type string; the Event
branch first attempts calendar creation when a due date exists, then appends
the row; a failing append raises out of this function; an unrecognized type
appends nothing and reports Unknown. -/
def CaptureFn.route_to_sheet (oc : CaptureOracles) (rowId : String)
    (data : CaptureData) :
    Except Unit (String × Option String × List (String × String)) :=
  if data.item_type = "Event" then
    let calId :=
      if data.due_date.isSome then CaptureFn.create_calendar_event oc data
      else none
    if oc.destAppendOk then .ok ("Events", calId, [("Events", rowId)])
    else .error ()
  else if data.item_type = "Task" then
    if oc.destAppendOk then .ok ("Tasks", none, [("Tasks", rowId)])
    else .error ()
  else if data.item_type = "Idea" then
    if oc.destAppendOk then .ok ("Ideas", none, [("Ideas", rowId)])
    else .error ()
  else if data.item_type = "Reference" then
    if oc.destAppendOk then .ok ("Reference", none, [("Reference", rowId)])
    else .error ()
  else .ok ("Unknown", none, [])

/-- main.py mark_inbox_processed: set the processed cell of the matching
inbox row to TRUE; any exception is caught, leaving the rows unchanged. -/
def CaptureFn.mark_inbox_processed (ok : Bool) (rows : List InboxRow)
    (rowId : String) : List InboxRow :=
  if ok then
    rows.map fun r => if r.id = rowId then { r with processed := true } else r
  else rows

/-- main.py capture from the save-to-inbox step onward: append the raw
capture to the Inbox unprocessed; on extraction failure return success with
the capture left unprocessed; otherwise coerce the category, route (a
routing exception is caught, reporting the Error tab), then mark the inbox
row processed unconditionally, and answer with the summary. -/
def CaptureFn.capture (oc : CaptureOracles) (rowId text capturedAt : String) :
    CaptureState :=
  if ¬ oc.inboxAppendOk then
    { statusCode := 500, success := false }
  else
    let inbox := [InboxRow.mk rowId text capturedAt false]
    match oc.gemini with
    | none => { inboxRows := inbox, success := true }
    | some data0 =>
      let data := CaptureFn.coerce_category data0
      let routed :=
        match CaptureFn.route_to_sheet oc rowId data with
        | .ok r => r
        | .error _ => ("Error", none, [])
      let inbox := CaptureFn.mark_inbox_processed oc.markOk inbox rowId
      { inboxRows := inbox
        destRows := routed.2.2
        success := true
        routedTo := some routed.1
        calendarCreated := routed.2.1.isSome }

/-! ## Helper lemmas -/

/-- mkProcessedItem never alters the record: an ok result returns the input. -/
theorem mkProcessedItem_ok {p q : ProcessedItem}
    (h : mkProcessedItem p = .ok q) : q = p := by
  unfold mkProcessedItem at h
  split_ifs at h <;> simp_all

/-- Characterization of validation success: the category is in the
vocabulary and any truthy subcategory is an Ideas subcategory of an Ideas
item. -/
theorem mkProcessedItem_ok_iff (p : ProcessedItem) :
    mkProcessedItem p = .ok p ↔
      (p.category ∈ CATEGORIES ∧
        ∀ s, p.subcategory = some s → s ≠ "" →
          p.category = "Ideas" ∧ s ∈ IDEA_SUBCATEGORIES) := by
  constructor
  · intro h
    have hcat : p.category ∈ CATEGORIES := by
      by_contra hc
      simp [mkProcessedItem, hc] at h
    refine ⟨hcat, ?_⟩
    intro s hs hne
    have ht : truthyStr p.subcategory = true := by simp [truthyStr, hs, hne]
    by_cases hid : p.category = "Ideas"
    · refine ⟨hid, ?_⟩
      by_contra hmem
      simp [mkProcessedItem, hcat, ht, hid, hs, hmem, truthyStr, hne,
        (by decide : ("Ideas" : String) ∈ CATEGORIES)] at h
    · simp [mkProcessedItem, hcat, ht, hid] at h
  · rintro ⟨hcat, hall⟩
    unfold mkProcessedItem
    by_cases ht : truthyStr p.subcategory = true
    · cases hs : p.subcategory with
      | none => simp [truthyStr, hs] at ht
      | some s =>
        have hne : s ≠ "" := by
          intro he
          rw [he] at hs
          simp [truthyStr, hs] at ht
        obtain ⟨hid, hmem⟩ := hall s hs hne
        simp [hcat, ht, hid, hs, hmem,
          (by decide : ("Ideas" : String) ∈ CATEGORIES)]
    · simp [hcat, ht]

/-! ## Claim C2 -/

/-- Probe item for C2: a HIGH-urgency Task with a location and no
consequence, handed to the calendar client reminder calculator. -/
def c2ProbeItem : ProcessedItem :=
  { item_type := .Task
    description := "pick up medication"
    category := "Health"
    urgency := .HIGH
    location := some "Pharmacy" }

/-- C2 counterexample: the claim states that for every urgency and booleans
the reminder computation appends 120 whenever has_location holds, but
CalendarClient._calculate_reminders appends the 120-minute travel buffer
only for Event-typed items: on a HIGH Task with a truthy location it yields
[10080, 1440, 60], while the documented algorithm with has_location = true
yields [10080, 1440, 60, 120]. -/
theorem c2_calendar_reminders_counterexample :
    truthyStr c2ProbeItem.location = true ∧
    c2ProbeItem.urgency = .HIGH ∧
    c2ProbeItem.consequence = none ∧
    (CalendarClient.calculate_reminders c2ProbeItem).map Reminder.minutes
      = [10080, 1440, 60] ∧
    specReminderMinutes "HIGH" true false = [10080, 1440, 60, 120] := by
  refine ⟨rfl, rfl, rfl, rfl, rfl⟩

/-- C2 (amended): the cloud-function calculate_reminders follows the exact
documented algorithm for every urgency level and every pair of booleans
(with method popup throughout), and CalendarClient._calculate_reminders
follows it for Event-typed items (for other item types it omits the
has_location 120 append); in particular calculate_reminders(HIGH, True,
True) returns exactly popup reminders of [10080, 1440, 60, 120]. -/
theorem c2_reminder_policy (u : String) (hu : u ∈ ["HIGH", "MEDIUM", "LOW"])
    (loc cons : Bool) (item : ProcessedItem) (hev : item.item_type = .Event) :
    (CaptureFn.calculate_reminders u loc cons).map Reminder.minutes
        = specReminderMinutes u loc cons ∧
    (∀ r ∈ CaptureFn.calculate_reminders u loc cons, r.method = "popup") ∧
    (CalendarClient.calculate_reminders item).map Reminder.minutes
        = specReminderMinutes item.urgency.toStr (truthyStr item.location)
            (truthyStr item.consequence) ∧
    CaptureFn.calculate_reminders "HIGH" true true
        = [popup 10080, popup 1440, popup 60, popup 120] := by
  refine ⟨?_, ?_, ?_, by decide⟩
  · simp only [List.mem_cons, List.not_mem_nil, or_false] at hu
    rcases hu with h | h | h <;> subst h <;> cases loc <;> cases cons <;> decide
  · simp only [List.mem_cons, List.not_mem_nil, or_false] at hu
    rcases hu with h | h | h <;> subst h <;> cases loc <;> cases cons <;> decide
  · cases hU : item.urgency <;>
      cases hL : truthyStr item.location <;>
        cases hC : truthyStr item.consequence <;>
          simp [CalendarClient.calculate_reminders, specReminderMinutes,
            Urgency.toStr, hev, hU, hL, hC, popup, dedupByMinutes,
            dedupFirstSeen]

/-- C2 witness: the amended theorem applied at HIGH with both booleans true
and at a concrete Event item. -/
def c2WitnessEvent : ProcessedItem :=
  { item_type := .Event
    description := "flight to NYC"
    category := "Travel"
    urgency := .MEDIUM
    location := some "SFO"
    consequence := some "miss the flight" }

theorem c2_reminder_policy_witness :
    (("HIGH" : String) ∈ ["HIGH", "MEDIUM", "LOW"] ∧
      c2WitnessEvent.item_type = .Event) ∧
    ((CaptureFn.calculate_reminders "HIGH" true true).map Reminder.minutes
        = specReminderMinutes "HIGH" true true ∧
      (∀ r ∈ CaptureFn.calculate_reminders "HIGH" true true, r.method = "popup") ∧
      (CalendarClient.calculate_reminders c2WitnessEvent).map Reminder.minutes
          = specReminderMinutes c2WitnessEvent.urgency.toStr
              (truthyStr c2WitnessEvent.location)
              (truthyStr c2WitnessEvent.consequence) ∧
      CaptureFn.calculate_reminders "HIGH" true true
          = [popup 10080, popup 1440, popup 60, popup 120]) :=
  ⟨⟨by decide, rfl⟩,
    c2_reminder_policy "HIGH" (by decide) true true c2WitnessEvent rfl⟩

/-! ## Claim C3 -/

/-- C3: when extraction raises on every attempt and max_retries is 3, the
orchestrator makes exactly 3 extraction attempts, sleeps retry_delay times
two to the attempt between consecutive attempts (so after attempts 0 and 1),
counts the capture failed once, never counts it processed, and leaves the
processed flag false. -/
theorem c3_retry_exhaustion (oc : ProcOracles) (cfg : ProcConfig)
    (hmax : cfg.max_retries = 3)
    (hext : ∀ n, oc.extract n = .error ()) :
    (Processor.process_single_item oc cfg).attempts = 3 ∧
    (Processor.process_single_item oc cfg).sleeps
        = [cfg.retry_delay * 2 ^ 0, cfg.retry_delay * 2 ^ 1] ∧
    (Processor.process_single_item oc cfg).stats.failed = 1 ∧
    (Processor.process_single_item oc cfg).stats.processed = 0 ∧
    (Processor.process_single_item oc cfg).markedProcessed = false := by
  unfold Processor.process_single_item
  rw [hmax]
  simp [Processor.attemptLoop, hext, Processor.handle_failed_item]

/-- Oracle for the C3 witness: extraction fails on every attempt; all other
collaborators would succeed. -/
def c3FailingOracle : ProcOracles :=
  { extract := fun _ => .error ()
    appendOk := true
    markOk := true
    hasCalendarClient := false
    createEvent := .error ()
    updateCalOk := true }

theorem c3_retry_exhaustion_witness :
    (({} : ProcConfig).max_retries = 3 ∧
      ∀ n, c3FailingOracle.extract n = .error ()) ∧
    ((Processor.process_single_item c3FailingOracle {}).attempts = 3 ∧
      (Processor.process_single_item c3FailingOracle {}).sleeps
          = [({} : ProcConfig).retry_delay * 2 ^ 0,
             ({} : ProcConfig).retry_delay * 2 ^ 1] ∧
      (Processor.process_single_item c3FailingOracle {}).stats.failed = 1 ∧
      (Processor.process_single_item c3FailingOracle {}).stats.processed = 0 ∧
      (Processor.process_single_item c3FailingOracle {}).markedProcessed
          = false) :=
  ⟨⟨rfl, fun _ => rfl⟩, c3_retry_exhaustion c3FailingOracle {} rfl fun _ => rfl⟩

/-! ## Claim C4 -/

/-- C4: for an Event item with a due date whose calendar-artifact creation
fails, the failure does not fail the item: the row is still appended to the
Events destination, the capture is still marked processed (and counted
processed), and no calendar id is backfilled, so with the item carrying no
calendar_event_id the persisted record keeps it empty. -/
theorem c4_calendar_failure_nonfatal (oc : ProcOracles) (cfg : ProcConfig)
    (item : ProcessedItem) (k : Nat) (d : Date)
    (hmax : cfg.max_retries = k + 1)
    (hext : oc.extract 0 = .ok item)
    (hev : item.item_type = .Event)
    (hdue : item.due_date = some d)
    (hact : item.calendar_action = .CREATE_EVENT)
    (hcal : oc.hasCalendarClient = true)
    (hfail : oc.createEvent = .error ())
    (happ : oc.appendOk = true)
    (hmark : oc.markOk = true)
    (hcid : item.calendar_event_id = none) :
    (Processor.process_single_item oc cfg).appended = [("Events", item)] ∧
    (Processor.process_single_item oc cfg).markedProcessed = true ∧
    (Processor.process_single_item oc cfg).calendarIdUpdates = [] ∧
    (Processor.process_single_item oc cfg).stats.processed = 1 ∧
    (Processor.process_single_item oc cfg).stats.events_created = 1 ∧
    (Processor.process_single_item oc cfg).stats.failed = 0 ∧
    (Processor.process_single_item oc cfg).stats.calendar_events_created = 0 ∧
    item.calendar_event_id = none := by
  unfold Processor.process_single_item
  rw [hmax]
  simp [Processor.attemptLoop, hext, happ, hmark, Processor.route_item,
    Processor.create_calendar_event, hev, hact, hcal, hfail, hdue, destTab,
    bumpTypeStat, hcid]

/-- Item for the C4 witness: an Event with a due date and no calendar id. -/
def c4EventItem : ProcessedItem :=
  { id := "ev-1"
    item_type := .Event
    description := "team dinner"
    category := "Work"
    due_date := some ⟨2025, 12, 1⟩
    calendar_action := .CREATE_EVENT }

/-- Oracle for the C4 witness: extraction and sheet writes succeed, the
calendar insert raises. -/
def c4CalendarFailOracle : ProcOracles :=
  { extract := fun _ => .ok c4EventItem
    appendOk := true
    markOk := true
    hasCalendarClient := true
    createEvent := .error ()
    updateCalOk := true }

theorem c4_calendar_failure_nonfatal_witness :
    (({} : ProcConfig).max_retries = 2 + 1 ∧
      c4CalendarFailOracle.extract 0 = .ok c4EventItem ∧
      c4EventItem.item_type = .Event ∧
      c4EventItem.due_date = some ⟨2025, 12, 1⟩ ∧
      c4EventItem.calendar_action = .CREATE_EVENT ∧
      c4CalendarFailOracle.hasCalendarClient = true ∧
      c4CalendarFailOracle.createEvent = .error () ∧
      c4CalendarFailOracle.appendOk = true ∧
      c4CalendarFailOracle.markOk = true ∧
      c4EventItem.calendar_event_id = none) ∧
    ((Processor.process_single_item c4CalendarFailOracle {}).appended
        = [("Events", c4EventItem)] ∧
      (Processor.process_single_item c4CalendarFailOracle {}).markedProcessed
        = true ∧
      (Processor.process_single_item c4CalendarFailOracle {}).calendarIdUpdates
        = [] ∧
      (Processor.process_single_item c4CalendarFailOracle {}).stats.processed
        = 1 ∧
      (Processor.process_single_item c4CalendarFailOracle {}).stats.events_created
        = 1 ∧
      (Processor.process_single_item c4CalendarFailOracle {}).stats.failed = 0 ∧
      (Processor.process_single_item
          c4CalendarFailOracle {}).stats.calendar_events_created = 0 ∧
      c4EventItem.calendar_event_id = none) :=
  ⟨⟨rfl, rfl, rfl, rfl, rfl, rfl, rfl, rfl, rfl, rfl⟩,
    c4_calendar_failure_nonfatal c4CalendarFailOracle {} c4EventItem 2
      ⟨2025, 12, 1⟩ rfl rfl rfl rfl rfl rfl rfl rfl rfl rfl⟩

/-! ## Claim C5 -/

/-- Probe item for C5: a model construction with an invalid category. -/
def c5BogusItem : ProcessedItem :=
  { item_type := .Task
    description := "check oil"
    category := "Bogus" }

/-- C5 counterexample: the claim states every extraction response with an
invalid category is coerced to Personal rather than rejected, but the core
model validator (models.py validate_category, cited by the claim) rejects:
constructing a ProcessedItem with category Bogus raises instead of coercing. -/
theorem c5_category_counterexample :
    c5BogusItem.category = "Bogus" ∧
    c5BogusItem.category ∉ CATEGORIES ∧
    mkProcessedItem c5BogusItem = .error "Invalid category" :=
  ⟨rfl, by decide, rfl⟩

/-- C5 (amended): in the capture cloud function an extraction response whose
category is outside CATEGORIES is silently coerced to Personal before
routing, while in the core pydantic model an invalid category is rejected
with a validation error (construction fails) rather than coerced. -/
theorem c5_category_coercion (d : CaptureData) (item : ProcessedItem)
    (hd : d.category ∉ CATEGORIES) (hi : item.category ∉ CATEGORIES) :
    (CaptureFn.coerce_category d).category = "Personal" ∧
    mkProcessedItem item = .error "Invalid category" := by
  constructor
  · simp [CaptureFn.coerce_category, hd]
  · simp [mkProcessedItem, hi]

/-- Extraction payload for the C5 witness. -/
def c5BogusData : CaptureData :=
  { item_type := "Task"
    description := "check oil"
    category := "Bogus" }

theorem c5_category_coercion_witness :
    (c5BogusData.category ∉ CATEGORIES ∧ c5BogusItem.category ∉ CATEGORIES) ∧
    ((CaptureFn.coerce_category c5BogusData).category = "Personal" ∧
      mkProcessedItem c5BogusItem = .error "Invalid category") :=
  ⟨⟨by decide, by decide⟩,
    c5_category_coercion c5BogusData c5BogusItem (by decide) (by decide)⟩

/-! ## Claim C6 -/

/-- Probe item for C6: category Work with subcategory set to the empty
string — non-null, hence in scope of the claim as stated. -/
def c6EmptySubItem : ProcessedItem :=
  { item_type := .Task
    description := "fix the shelf"
    category := "Work"
    subcategory := some "" }

/-- C6 counterexample: the claim states construction with a non-null
subcategory succeeds if and only if the category is Ideas and the
subcategory is an allowed Ideas subcategory, but the validator only fires on
a Python-truthy subcategory: an item with category Work and the non-null
empty-string subcategory validates successfully even though its category is
not Ideas and the empty string is not an allowed subcategory. -/
theorem c6_subcategory_counterexample :
    c6EmptySubItem.subcategory = some "" ∧
    c6EmptySubItem.category = "Work" ∧
    ("" : String) ∉ IDEA_SUBCATEGORIES ∧
    mkProcessedItem c6EmptySubItem = .ok c6EmptySubItem :=
  ⟨rfl, rfl, by decide, rfl⟩

/-- C6 (amended): constructing a ProcessedItem with a truthy (non-null and
nonempty) subcategory succeeds if and only if the category equals Ideas and
the subcategory is in IDEA_SUBCATEGORIES; the empty-string subcategory is
exempt because the Python validator tests truthiness, not nullness. -/
theorem c6_subcategory_validation (item : ProcessedItem) (s : String)
    (hs : item.subcategory = some s) (hne : s ≠ "") :
    (mkProcessedItem item).isOk = true ↔
      (item.category = "Ideas" ∧ s ∈ IDEA_SUBCATEGORIES) := by
  have ht : truthyStr item.subcategory = true := by simp [truthyStr, hs, hne]
  constructor
  · intro h
    have hok : mkProcessedItem item = .ok item := by
      unfold mkProcessedItem at h ⊢
      split_ifs at h ⊢ <;> simp_all [Except.isOk, Except.toBool]
    obtain ⟨-, hall⟩ := (mkProcessedItem_ok_iff item).mp hok
    exact hall s hs hne
  · rintro ⟨hid, hmem⟩
    have hok : mkProcessedItem item = .ok item := by
      rw [mkProcessedItem_ok_iff]
      refine ⟨by rw [hid]; decide, ?_⟩
      intro s2 hs2 _
      rw [hs] at hs2
      obtain rfl : s = s2 := by injection hs2
      exact ⟨hid, hmem⟩
    rw [hok]
    rfl

/-- Item for the C6 witness: the validating Ideas-Books example of the
claim. -/
def c6IdeasBooksItem : ProcessedItem :=
  { item_type := .Idea
    description := "read Thinking Fast and Slow"
    category := "Ideas"
    subcategory := some "Books" }

theorem c6_subcategory_validation_witness :
    (c6IdeasBooksItem.subcategory = some "Books" ∧ ("Books" : String) ≠ "") ∧
    ((mkProcessedItem c6IdeasBooksItem).isOk = true ↔
      (c6IdeasBooksItem.category = "Ideas" ∧
        ("Books" : String) ∈ IDEA_SUBCATEGORIES)) :=
  ⟨⟨rfl, by decide⟩,
    c6_subcategory_validation c6IdeasBooksItem "Books" rfl (by decide)⟩

/-! ## Claim C1 -/

/-- The calendar step never touches the destination rows or the processed
flag. -/
theorem create_calendar_event_effects (oc : ProcOracles) (st : ProcState)
    (item : ProcessedItem) :
    (Processor.create_calendar_event oc st item).appended = st.appended ∧
    (Processor.create_calendar_event oc st item).markedProcessed
      = st.markedProcessed := by
  unfold Processor.create_calendar_event
  split
  · exact ⟨rfl, rfl⟩
  · split
    · exact ⟨rfl, rfl⟩
    · split
      · exact ⟨rfl, rfl⟩
      · exact ⟨rfl, rfl⟩
      · split
        · exact ⟨rfl, rfl⟩
        · exact ⟨rfl, rfl⟩

/-- The failure handler never touches the destination rows or the processed
flag. -/
theorem handle_failed_item_effects (st : ProcState) :
    (Processor.handle_failed_item st).appended = st.appended ∧
    (Processor.handle_failed_item st).markedProcessed = st.markedProcessed :=
  ⟨rfl, rfl⟩

/-- Invariant of the retry loop: if the incoming state already satisfies
marked-implies-persisted, so does the outgoing state — the loop marks the
capture processed only on the path that has just appended the item row. -/
theorem attemptLoop_persist (oc : ProcOracles) (cfg : ProcConfig) :
    ∀ (n a : Nat) (st : ProcState),
      (st.markedProcessed = true → st.appended ≠ []) →
      (Processor.attemptLoop oc cfg a n st).markedProcessed = true →
      (Processor.attemptLoop oc cfg a n st).appended ≠ [] := by
  intro n
  induction n with
  | zero =>
    intro a st h hm
    exact h hm
  | succ m ih =>
    intro a st h
    rw [Processor.attemptLoop]
    cases hx : oc.extract a with
    | ok item =>
      by_cases happ : oc.appendOk
      · simp only [happ, if_true]
        by_cases hcal : item.calendar_action = .CREATE_EVENT ∨
            item.calendar_action = .CREATE_REMINDER
        all_goals by_cases hmk : oc.markOk
        all_goals intro _
        all_goals simp [hcal, hmk, Processor.handle_failed_item,
          (create_calendar_event_effects oc _ item).1, Processor.route_item]
      · simp only [Bool.not_eq_true] at happ
        simp only [happ]
        intro hm
        exact h hm
    | error e =>
      by_cases hz : m = 0
      · simp only [hz, if_true, ite_true]
        intro hm
        exact h hm
      · simp only [hz, if_false, ite_false]
        exact ih (a + 1) _ h

/-- C1 (amended): in the batch Processor a capture is marked processed only
after its structured record has been appended to a destination collection —
whatever the collaborator outcomes, a run that ends with the processed flag
set has written at least one destination row (the calendar artifact being
exempt: its failure changes nothing here).  The capture cloud function does
not share this guarantee: a routing failure there is caught and the capture
is still marked processed (see the counterexample). -/
theorem c1_processed_implies_persisted (oc : ProcOracles) (cfg : ProcConfig)
    (h : (Processor.process_single_item oc cfg).markedProcessed = true) :
    (Processor.process_single_item oc cfg).appended ≠ [] :=
  attemptLoop_persist oc cfg cfg.max_retries 0 {} (by simp) h

/-- Item for the C1 witness: a plain Task that processes successfully. -/
def c1TaskItem : ProcessedItem :=
  { id := "t-9"
    item_type := .Task
    description := "pay rent"
    category := "Finance" }

/-- Oracle for the C1 witness: everything succeeds. -/
def c1AllOkOracle : ProcOracles :=
  { extract := fun _ => .ok c1TaskItem
    appendOk := true
    markOk := true
    hasCalendarClient := false
    createEvent := .error ()
    updateCalOk := true }

theorem c1_processed_implies_persisted_witness :
    (Processor.process_single_item c1AllOkOracle {}).markedProcessed = true ∧
    (Processor.process_single_item c1AllOkOracle {}).appended ≠ [] :=
  ⟨rfl, c1_processed_implies_persisted c1AllOkOracle {} rfl⟩

/-- Extraction payload for the C1 counterexample: a well-formed Task. -/
def c1MilkData : CaptureData :=
  { item_type := "Task"
    description := "buy milk"
    category := "Personal" }

/-- Oracle for the C1 counterexample: the inbox append and the processed
mark succeed, but the destination append raises. -/
def c1RouteFailOracle : CaptureOracles :=
  { gemini := some c1MilkData
    inboxAppendOk := true
    destAppendOk := false
    calendarConfigured := false
    calendarInsert := .error ()
    markOk := true }

/-- C1 counterexample: in the capture cloud function, when the destination
append raises, the routing exception is caught and the capture is still
marked processed — the reachable final state has the inbox row processed
while no destination row exists, falsifying the claim over the whole
program. -/
theorem c1_capture_counterexample :
    (CaptureFn.capture c1RouteFailOracle "id1" "buy milk" "t0").destRows
      = [] ∧
    (CaptureFn.capture c1RouteFailOracle "id1" "buy milk" "t0").inboxRows
      = [InboxRow.mk "id1" "buy milk" "t0" true] ∧
    (CaptureFn.capture c1RouteFailOracle "id1" "buy milk" "t0").routedTo
      = some "Error" :=
  ⟨rfl, rfl, rfl⟩

/-! ## Claim C7 -/

/-- Unfolding of Except.toOption success. -/
theorem Except.toOption_eq_some_iff {ε α : Type _} (e : Except ε α) (a : α) :
    e.toOption = some a ↔ e = .ok a := by
  cases e <;> simp [Except.toOption]

/-- Boolean reading of the claim phrase that undated entries sort last:
after the leading block of timed entries, only untimed entries remain. -/
def undatedLast (l : List ProcessedItem) : Bool :=
  (l.dropWhile fun p => p.due_time.isSome).all fun p => p.due_time.isNone

/-- Event rows for the C7 counterexample: a 10:00 event listed before an
event with an empty time cell, both on the queried date. -/
def c7TimedRow : EventRow :=
  { id := "e-a"
    description := "standup"
    category := "Work"
    people := ""
    event_date := some ⟨2025, 10, 12⟩
    event_time := some ⟨10, 0⟩
    location := ""
    urgency := "HIGH"
    consequence := ""
    calendar_event_id := ""
    captured_at := "" }

def c7UntimedRow : EventRow :=
  { id := "e-b"
    description := "errand day"
    category := "Personal"
    people := ""
    event_date := some ⟨2025, 10, 12⟩
    event_time := none
    location := ""
    urgency := "LOW"
    consequence := ""
    calendar_event_id := ""
    captured_at := "" }

/-- C7 counterexample: the claim says entries with no time-of-day sort last,
but get_events_for_date keys a missing due_time as datetime.min.time()
(midnight), so the untimed event sorts before the 10:00 event. -/
theorem c7_undated_first_counterexample :
    (SheetsClient.get_events_for_date [c7TimedRow, c7UntimedRow]
        ⟨2025, 10, 12⟩).map (fun p => p.due_time)
      = [none, some ⟨10, 0⟩] ∧
    undatedLast
      (SheetsClient.get_events_for_date [c7TimedRow, c7UntimedRow]
        ⟨2025, 10, 12⟩) = false :=
  ⟨rfl, rfl⟩

/-- C7 (amended): for every target date, get_events_for_date returns exactly
the parseable events whose date cell equals the target, stably sorted
ascending by time-of-day with entries lacking a time keyed as midnight
(hence sorting first among the day, not last). -/
theorem c7_events_for_date (rows : List EventRow) (target : Date) :
    (SheetsClient.get_events_for_date rows target).Perm
        (rows.filterMap fun row =>
          if row.event_date = some target
          then (ProcessedItem.from_event_row row).toOption else none) ∧
    List.Sorted eventTimeLe (SheetsClient.get_events_for_date rows target) ∧
    ∀ e, e ∈ SheetsClient.get_events_for_date rows target ↔
      ∃ row ∈ rows, row.event_date = some target ∧
        ProcessedItem.from_event_row row = .ok e := by
  refine ⟨List.perm_insertionSort _ _, List.sorted_insertionSort _ _, ?_⟩
  intro e
  rw [SheetsClient.get_events_for_date, List.mem_insertionSort,
    List.mem_filterMap]
  constructor
  · rintro ⟨row, hrow, hsome⟩
    by_cases hd : row.event_date = some target
    · rw [if_pos hd] at hsome
      exact ⟨row, hrow, hd, (Except.toOption_eq_some_iff _ _).mp hsome⟩
    · rw [if_neg hd] at hsome
      cases hsome
  · rintro ⟨row, hrow, hd, hok⟩
    refine ⟨row, hrow, ?_⟩
    rw [if_pos hd, hok]
    rfl

theorem c7_events_for_date_witness :
    List.Sorted eventTimeLe
      (SheetsClient.get_events_for_date [c7TimedRow, c7UntimedRow]
        ⟨2025, 10, 12⟩) :=
  (c7_events_for_date [c7TimedRow, c7UntimedRow] ⟨2025, 10, 12⟩).2.1

/-! ## Claim C9 -/

/-- Parsing a task row never changes the due date. -/
theorem from_task_row_due_date {row : TaskRow} {t : ProcessedItem}
    (h : ProcessedItem.from_task_row row = .ok t) :
    t.due_date = row.due_date := by
  unfold ProcessedItem.from_task_row at h
  split at h
  · have ht := mkProcessedItem_ok h
    subst ht
    rfl
  · simp at h

/-- Membership characterization of the due-by query, shared by the claims
about it: an item is returned iff some open row with a present due date at
most the cutoff parses to it. -/
theorem tasks_due_by_mem (rows : List TaskRow) (target : Date)
    (t : ProcessedItem) :
    t ∈ SheetsClient.get_tasks_due_by rows target ↔
      ∃ row ∈ rows,
        ¬(row.status = "completed" ∨ row.status = "cancelled") ∧
        (∃ d, row.due_date = some d ∧ Date.le d target) ∧
        ProcessedItem.from_task_row row = .ok t := by
  rw [SheetsClient.get_tasks_due_by, List.mem_insertionSort, List.mem_filterMap]
  constructor
  · rintro ⟨row, hrow, hsome⟩
    by_cases hc : row.status = "completed" ∨ row.status = "cancelled"
    · rw [if_pos hc] at hsome
      cases hsome
    · rw [if_neg hc] at hsome
      cases hd : row.due_date with
      | none =>
        rw [hd] at hsome
        cases hsome
      | some d =>
        rw [hd] at hsome
        dsimp only at hsome
        by_cases hle : Date.le d target
        · rw [if_pos hle] at hsome
          exact ⟨row, hrow, hc, ⟨d, hd, hle⟩,
            (Except.toOption_eq_some_iff _ _).mp hsome⟩
        · rw [if_neg hle] at hsome
          cases hsome
  · rintro ⟨row, hrow, hc, ⟨d, hd, hle⟩, hok⟩
    refine ⟨row, hrow, ?_⟩
    rw [if_neg hc, hd]
    dsimp only
    rw [if_pos hle, hok]
    rfl

/-- C9: for every cutoff date, get_tasks_due_by returns exactly the
parseable task rows that are not completed or cancelled and whose due date
is present and at most the cutoff, sorted ascending by the (due-date,
urgency-rank) pair with HIGH before MEDIUM before LOW. -/
theorem c9_tasks_due_by (rows : List TaskRow) (target : Date) :
    List.Sorted taskSortLe (SheetsClient.get_tasks_due_by rows target) ∧
    ∀ t, t ∈ SheetsClient.get_tasks_due_by rows target ↔
      ∃ row ∈ rows,
        ¬(row.status = "completed" ∨ row.status = "cancelled") ∧
        (∃ d, row.due_date = some d ∧ Date.le d target) ∧
        ProcessedItem.from_task_row row = .ok t :=
  ⟨List.sorted_insertionSort _ _, tasks_due_by_mem rows target⟩

/-- Task rows for the C9 and C10 witnesses. -/
def c9DatedRow : TaskRow :=
  { id := "t-a"
    description := "file taxes"
    category := "Finance"
    subcategory := ""
    people := ""
    due_date := some ⟨2025, 4, 15⟩
    urgency := "HIGH"
    consequence := "penalty"
    status := "pending"
    notes := ""
    calendar_event_id := ""
    captured_at := "" }

def c9CompletedRow : TaskRow :=
  { id := "t-b"
    description := "book dentist"
    category := "Health"
    subcategory := ""
    people := ""
    due_date := some ⟨2025, 3, 1⟩
    urgency := "LOW"
    consequence := ""
    status := "completed"
    notes := ""
    calendar_event_id := ""
    captured_at := "" }

theorem c9_tasks_due_by_witness :
    List.Sorted taskSortLe
      (SheetsClient.get_tasks_due_by [c9DatedRow, c9CompletedRow]
        ⟨2025, 12, 31⟩) :=
  (c9_tasks_due_by [c9DatedRow, c9CompletedRow] ⟨2025, 12, 31⟩).1

/-! ## Claim C10 -/

/-- A task row whose due-date cell is empty. -/
def c10UndatedRow : TaskRow :=
  { id := "t-u"
    description := "organize garage"
    category := "Home"
    subcategory := ""
    people := ""
    due_date := none
    urgency := "HIGH"
    consequence := ""
    status := "pending"
    notes := ""
    calendar_event_id := ""
    captured_at := "" }

/-- C10: every task returned by get_tasks_due_by carries a due date at most
the cutoff — and a row whose due-date cell is empty contributes nothing to
the query result, whatever its status, so undated tasks are invisible to
the due-by query. -/
theorem c10_undated_tasks_invisible :
    (∀ (rows : List TaskRow) (target : Date) (t : ProcessedItem),
        t ∈ SheetsClient.get_tasks_due_by rows target →
        ∃ d, t.due_date = some d ∧ Date.le d target) ∧
    (∀ (pre post : List TaskRow) (r : TaskRow) (target : Date),
        r.due_date = none →
        SheetsClient.get_tasks_due_by (pre ++ r :: post) target
          = SheetsClient.get_tasks_due_by (pre ++ post) target) := by
  constructor
  · intro rows target t ht
    obtain ⟨row, -, -, ⟨d, hd, hle⟩, hok⟩ :=
      (tasks_due_by_mem rows target t).mp ht
    refine ⟨d, ?_, hle⟩
    rw [from_task_row_due_date hok, hd]
  · intro pre post r target hr
    unfold SheetsClient.get_tasks_due_by
    have hnone :
        (if r.status = "completed" ∨ r.status = "cancelled" then none
         else
           match r.due_date with
           | none => none
           | some d =>
               if Date.le d target then (ProcessedItem.from_task_row r).toOption
               else none)
          = (none : Option ProcessedItem) := by
      rw [hr]
      split_ifs <;> rfl
    rw [List.filterMap_append, List.filterMap_cons, hnone,
      List.filterMap_append]

/-- The item produced by parsing c9DatedRow, spelled out for the closed
witness below. -/
def c10ExpectedItem : ProcessedItem :=
  { id := "t-a"
    raw_text := ""
    item_type := .Task
    description := "file taxes"
    category := "Finance"
    due_date := some ⟨2025, 4, 15⟩
    urgency := .HIGH
    consequence := some "penalty"
    status := .pending }

theorem c10_undated_tasks_invisible_witness :
    c10ExpectedItem ∈
        SheetsClient.get_tasks_due_by [c9DatedRow] ⟨2025, 12, 31⟩ ∧
    (∃ d, c10ExpectedItem.due_date = some d ∧ Date.le d ⟨2025, 12, 31⟩) ∧
    c10UndatedRow.due_date = none ∧
    SheetsClient.get_tasks_due_by [c10UndatedRow, c9DatedRow] ⟨2025, 12, 31⟩
      = SheetsClient.get_tasks_due_by [c9DatedRow] ⟨2025, 12, 31⟩ :=
  ⟨by decide,
    c10_undated_tasks_invisible.1 [c9DatedRow] ⟨2025, 12, 31⟩ c10ExpectedItem
      (by decide),
    rfl,
    c10_undated_tasks_invisible.2 [] [c9DatedRow] c10UndatedRow
      ⟨2025, 12, 31⟩ rfl⟩

/-! ## Claim C8 -/

/-- The or-empty serialization collapse inverts for optional strings other
than the empty string. -/
theorem cellOpt_getD (o : Option String) (h : o ≠ some "") :
    cellOpt (o.getD "") = o := by
  cases o with
  | none => rfl
  | some s =>
    have hs : s ≠ "" := by
      intro he
      rw [he] at h
      exact h rfl
    simp [cellOpt, hs]

/-- Serialized urgency survives the row default and the Literal parse. -/
theorem urgency_parse_serialized (u : Urgency) :
    Urgency.parse (if u.toStr = "" then "MEDIUM" else u.toStr) = some u := by
  cases u <;> rfl

/-- Serialized status survives the row default and the Literal parse. -/
theorem status_parse_serialized (st : Status) :
    Status.parse (if st.toStr = "" then "pending" else st.toStr) = some st := by
  cases st <;> rfl

/-- A serialized-then-parsed subcategory cell keeps satisfying the
subcategory validator obligations of the original item. -/
theorem cellOpt_subcategory_sound (item : ProcessedItem)
    (hsub : ∀ s, item.subcategory = some s → s ≠ "" →
        item.category = "Ideas" ∧ s ∈ IDEA_SUBCATEGORIES) :
    ∀ s, cellOpt (item.subcategory.getD "") = some s → s ≠ "" →
      item.category = "Ideas" ∧ s ∈ IDEA_SUBCATEGORIES := by
  intro s hcell hne
  cases hso : item.subcategory with
  | none =>
    rw [hso] at hcell
    simp [cellOpt] at hcell
  | some x =>
    rw [hso] at hcell
    by_cases hx : x = ""
    · rw [hx] at hcell
      simp [cellOpt] at hcell
    · simp [cellOpt, hx] at hcell
      exact hsub s (by rw [hso, hcell]) hne

/-- Probe item for C8: an Event carrying notes, a field the Events row
format does not store. -/
def c8EventWithNotes : ProcessedItem :=
  { id := "ev-7"
    item_type := .Event
    description := "dinner reservation"
    category := "Family"
    due_date := some ⟨2025, 11, 2⟩
    notes := some "bring the gift" }

/-- C8 counterexample: the claim promises equality on all populated fields
among a list including notes for every item type, but the Events row format
has no notes column: serializing an Event with populated notes and
reconstructing it yields an item whose notes are gone. -/
theorem c8_notes_dropped_counterexample :
    c8EventWithNotes.notes = some "bring the gift" ∧
    (ProcessedItem.from_event_row c8EventWithNotes.to_event_row).map
        (fun e => e.notes) = .ok none :=
  ⟨rfl, rfl⟩

/-- C8 (amended): for a validated item whose people cell round-trips (names
nonempty and comma-free) and whose optional consequence and notes strings
are not the empty string, serializing to each destination row format and
reconstructing yields an item equal on the populated claimed fields that the
row format stores: all of them but due_time for Tasks, all but notes for
Events, only id, description, category, people and notes for Ideas, and
only id, description and category for Reference. -/
theorem c8_round_trip (item : ProcessedItem)
    (hcat : item.category ∈ CATEGORIES)
    (hsub : ∀ s, item.subcategory = some s → s ≠ "" →
        item.category = "Ideas" ∧ s ∈ IDEA_SUBCATEGORIES)
    (hppl : parsePeople (joinPeople item.people) = item.people)
    (hcons : item.consequence ≠ some "")
    (hnotes : item.notes ≠ some "") :
    (∃ t, ProcessedItem.from_task_row item.to_task_row = .ok t ∧
        t.id = item.id ∧ t.description = item.description ∧
        t.category = item.category ∧ t.people = item.people ∧
        t.due_date = item.due_date ∧ t.urgency = item.urgency ∧
        t.consequence = item.consequence ∧ t.notes = item.notes ∧
        t.status = item.status) ∧
    (∃ e, ProcessedItem.from_event_row item.to_event_row = .ok e ∧
        e.id = item.id ∧ e.description = item.description ∧
        e.category = item.category ∧ e.people = item.people ∧
        e.due_date = item.due_date ∧ e.due_time = item.due_time ∧
        e.urgency = item.urgency ∧ e.consequence = item.consequence) ∧
    (∃ i, ProcessedItem.from_idea_row item.to_idea_row = .ok i ∧
        i.id = item.id ∧ i.description = item.description ∧
        i.category = item.category ∧ i.people = item.people ∧
        i.notes = item.notes) ∧
    (∃ rr, ProcessedItem.from_reference_row item.to_reference_row = .ok rr ∧
        rr.id = item.id ∧ rr.description = item.description ∧
        rr.category = item.category) := by
  refine ⟨?_, ?_, ?_, ?_⟩
  · unfold ProcessedItem.from_task_row ProcessedItem.to_task_row
    dsimp only
    rw [urgency_parse_serialized, status_parse_serialized]
    exact ⟨_,
      (mkProcessedItem_ok_iff _).mpr
        ⟨hcat, cellOpt_subcategory_sound item hsub⟩,
      rfl, rfl, rfl, hppl, rfl, rfl, cellOpt_getD _ hcons,
      cellOpt_getD _ hnotes, rfl⟩
  · unfold ProcessedItem.from_event_row ProcessedItem.to_event_row
    dsimp only
    rw [urgency_parse_serialized]
    exact ⟨_,
      (mkProcessedItem_ok_iff _).mpr
        ⟨hcat, fun s h _ => Option.noConfusion h⟩,
      rfl, rfl, rfl, hppl, rfl, rfl, rfl, cellOpt_getD _ hcons⟩
  · unfold ProcessedItem.from_idea_row ProcessedItem.to_idea_row
    dsimp only
    exact ⟨_,
      (mkProcessedItem_ok_iff _).mpr
        ⟨hcat, cellOpt_subcategory_sound item hsub⟩,
      rfl, rfl, rfl, hppl, cellOpt_getD _ hnotes⟩
  · unfold ProcessedItem.from_reference_row ProcessedItem.to_reference_row
    dsimp only
    exact ⟨_,
      (mkProcessedItem_ok_iff _).mpr
        ⟨hcat, fun s h _ => Option.noConfusion h⟩,
      rfl, rfl, rfl⟩

/-- Item for the C8 witness: a fully populated valid Task. -/
def c8WitnessItem : ProcessedItem :=
  { id := "w-1"
    item_type := .Task
    description := "renew registration"
    category := "Car"
    people := ["Dad"]
    due_date := some ⟨2025, 11, 1⟩
    urgency := .HIGH
    consequence := some "late fee"
    notes := some "DMV before noon" }

theorem c8_round_trip_witness :
    (c8WitnessItem.category ∈ CATEGORIES ∧
      parsePeople (joinPeople c8WitnessItem.people) = c8WitnessItem.people ∧
      c8WitnessItem.consequence ≠ some "" ∧
      c8WitnessItem.notes ≠ some "") ∧
    (∃ t, ProcessedItem.from_task_row c8WitnessItem.to_task_row = .ok t ∧
        t.id = c8WitnessItem.id ∧ t.description = c8WitnessItem.description ∧
        t.category = c8WitnessItem.category ∧
        t.people = c8WitnessItem.people ∧
        t.due_date = c8WitnessItem.due_date ∧
        t.urgency = c8WitnessItem.urgency ∧
        t.consequence = c8WitnessItem.consequence ∧
        t.notes = c8WitnessItem.notes ∧
        t.status = c8WitnessItem.status) :=
  ⟨⟨by decide, by decide, by decide, by decide⟩,
    (c8_round_trip c8WitnessItem (by decide)
      (fun s h _ => Option.noConfusion h) (by decide) (by decide)
      (by decide)).1⟩
